import Mathlib

/-!
Verification development for the `verify_inside_snark` aggregation pipeline
(`src/semaphore_aggregation/src/snark/verifier_api.rs`).

The pipeline is embedded as a state-passing trace semantics:

* `World` models the ambient process state a Rust function can touch: the
  operating-system randomness source (`OsRng`, modelled as a counter) and the
  `lazy_static` cell holding the cached SRS.
* `Env` bundles the behaviour of the external crates the file calls into
  (halo2 `MockProver` / `keygen_vk` / `keygen_pk` / `create_proof` /
  `verify_proof`, the `snark_verifier` protocol compiler, the EVM executor,
  and the SRS file decoders).  The wrapper code under verification is the
  control flow that sequences those calls, so the externals are abstract
  deterministic functions supplied by the environment.
* Every `EvmVerifier` method is embedded as a function of its Rust arguments
  plus the `World`, returning the list of externally visible `Event`s it
  performs (in order), its result (`Except PipelineError`, where an `error`
  models a Rust panic or propagated failure), and the updated `World`.

Field elements are modelled as natural numbers reduced modulo the relevant
prime; proofs, keys and bytecode are opaque data (`Nat` / `List Nat`).
-/

/-- Modulus of the Goldilocks field, 2^64 - 2^32 + 1. -/
def GOLDILOCKS_P : Nat := 18446744069414584321

/-- Modulus of the BN254 scalar field `Fr`. -/
def BN254_R : Nat := 21888242871839275222246405745257275088548364400416034343698204186575808495617

/-- Modelled from the spec (conversion boundary): `types::to_goldilocks`
maps a plonky2 `GoldilocksField` element to the halo2 `Goldilocks` element
with the same canonical integer value. -/
def to_goldilocks (e : Nat) : Nat := e % GOLDILOCKS_P

/-- Modelled from the spec (conversion boundary): `fe_to_big` returns the
canonical integer of a field element. -/
def fe_to_big (x : Nat) : Nat := x

/-- Modelled from the spec (conversion boundary): `big_to_fe` reduces an
integer into the BN254 scalar field `Fr`. -/
def big_to_fe (b : Nat) : Nat := b % BN254_R

/-- Value object for a converted plonky2 proof (`ProofValues::from`). -/
structure ProofValues where
  data : Nat
deriving DecidableEq, Repr

/-- Value object for converted verifier-only circuit data
(`VerificationKeyValues::from`). -/
structure VerificationKeyValues where
  data : Nat
deriving DecidableEq, Repr

/-- Value object for converted common circuit data (`CommonData::from`). -/
structure CommonData where
  data : Nat
deriving DecidableEq, Repr

/-- The Poseidon spec object built by `Spec::<Goldilocks, 12, 11>::new(8, 22)`. -/
structure PoseidonSpec where
  rF : Nat
  rP : Nat
deriving DecidableEq, Repr

/-- Modelled from the spec (conversion boundary): `ProofValues::from` on the
inner plonky2 proof object. -/
def ProofValues.fromInner (p : Nat) : ProofValues := ⟨p⟩

/-- Modelled from the spec (conversion boundary): `VerificationKeyValues::from`
on the verifier-only circuit data. -/
def VerificationKeyValues.fromVd (vd : Nat) : VerificationKeyValues := ⟨vd⟩

/-- Modelled from the spec (conversion boundary): `CommonData::from` on the
common circuit data. -/
def CommonData.fromCd (cd : Nat) : CommonData := ⟨cd⟩

/-- Constructor `Spec::new(r_f, r_p)`. -/
def PoseidonSpec.new (rF rP : Nat) : PoseidonSpec := ⟨rF, rP⟩

/-- The verifier circuit value built by `Verifier::new(proof, instances, vk,
common_data, spec)`. -/
structure Verifier where
  proof : ProofValues
  instances : List Nat
  vk : VerificationKeyValues
  common_data : CommonData
  poseidonSpec : PoseidonSpec
deriving DecidableEq, Repr

/-- Constructor `Verifier::new`. -/
def Verifier.new (proof : ProofValues) (instances : List Nat)
    (vk : VerificationKeyValues) (common_data : CommonData)
    (poseidonSpec : PoseidonSpec) : Verifier :=
  ⟨proof, instances, vk, common_data, poseidonSpec⟩

/-- KZG parameters (`ParamsKZG<Bn256>`): the size exponent `k` together with
an identifier of the sampled SRS content (the randomness that produced it). -/
structure ParamsKZG where
  k : Nat
  seed : Nat
deriving DecidableEq, Repr

/-- The plonky2 proof object together with its public inputs
(`ProofWithPublicInputs`): the inner proof is opaque, the public inputs are
Goldilocks field elements in order. -/
structure ProofWithPublicInputs where
  proof : Nat
  public_inputs : List Nat
deriving DecidableEq, Repr

/-- The `ProofTuple` fed to both public entry points: plonky2 proof with
public inputs, verifier-only circuit data, common circuit data. -/
structure ProofTuple where
  proof_with_public_inputs : ProofWithPublicInputs
  vd : Nat
  cd : Nat
deriving DecidableEq, Repr

/-- Failure modes of the pipeline; an `Except.error` models a Rust panic
(`unwrap` / `assert`) or propagated error at that point. -/
inductive PipelineError where
  | fileReadError
  | malformedParams
  | circuitTooLarge
  | mockUnsatisfied
  | proofCreationFailed
  | selfVerificationFailed
  | evmReverted
deriving DecidableEq, Repr

/-- Externally visible events of a pipeline run, in execution order, with the
data the source passes at each call site. -/
inductive Event where
  | mockRun (k : Nat) (instances : List (List Nat))
  | keygenVk (p : ParamsKZG)
  | keygenPk (p : ParamsKZG)
  | compileVerifier (p : ParamsKZG) (numInstance : List Nat)
  | createProof (p : ParamsKZG)
  | verifyProof (p : ParamsKZG)
  | encodeCalldata (instances : List (List Nat)) (proof : List Nat)
  | evmDeploy
  | evmCall
deriving DecidableEq, Repr

/-- The ambient process state: the randomness source (`OsRng`, modelled as a
counter yielding successive draws) and the `lazy_static` cell caching the SRS. -/
structure World where
  rng : Nat
  srsCache : Option ParamsKZG
deriving DecidableEq, Repr

/-- Behaviour of the external crates, supplied as deterministic functions.
Determinism of `keygen`, the protocol compiler and calldata encoding is the
documented contract of those crates (spec sections 4.2, 4.5, 4.6). -/
structure Env where
  /-- Row count required by a circuit (decides the capacity check in keygen). -/
  rows : Verifier → Nat
  /-- Verifying-key derivation content of halo2 `keygen_vk`. -/
  vkOf : ParamsKZG → Verifier → Nat
  /-- Proving-key derivation content of halo2 `keygen_pk` (the commitment work). -/
  pkOf : ParamsKZG → Nat → Verifier → Nat
  /-- `pk.get_vk()`. -/
  getVk : Nat → Nat
  /-- Whether `MockProver::run(k, circuit, instances)` succeeds and
  `assert_satisfied` passes. -/
  mockOk : Nat → Verifier → List (List Nat) → Bool
  /-- halo2 `create_proof` over the EVM transcript; consumes one randomness
  draw; `none` models a failure (unwrap panic). -/
  createProof : ParamsKZG → Nat → Verifier → List (List Nat) → Nat → Option (List Nat)
  /-- Whether the `verify_proof` replay plus `AccumulatorStrategy::finalize`
  accepts the given proof bytes for the given parameters, key and instances. -/
  verifyAccepts : ParamsKZG → Nat → List (List Nat) → List Nat → Bool
  /-- The `snark_verifier` compilation pipeline of `gen_evm_verifier`
  (protocol compile, EvmLoader symbolic run, `compile_yul`): deployment
  bytecode as a function of parameters, verifying key and instance counts. -/
  compileVerifier : ParamsKZG → Nat → List Nat → List Nat
  /-- `encode_calldata(instances, proof)`. -/
  encodeCalldata : List (List Nat) → List Nat → List Nat
  /-- Whether the EVM call of the deployed verifier on the calldata does not
  revert. -/
  evmAccepts : List Nat → List Nat → Bool
  /-- Modelled from the spec: `Srs::read` with a `PerpetualPowerOfTau` size
  tag; `none` models a decode failure on a malformed or truncated file or a
  mismatched size tag. -/
  decodeSrs : List Nat → Nat → Option Nat
  /-- `Srs::write_raw` serialization. -/
  writeRaw : Nat → List Nat
  /-- Modelled from the spec: `ParamsKZG::read`; `none` models a decode
  failure on malformed bytes. -/
  decodeParams : List Nat → Option ParamsKZG

/-- One draw from the randomness source. -/
def drawRandom (w : World) : Nat × World :=
  (w.rng, ⟨w.rng + 1, w.srsCache⟩)

namespace EvmVerifier

/-- `EvmVerifier::gen_srs(k)`: `ParamsKZG::setup(k, OsRng)` — fresh
parameters of size exponent `k` from the randomness source. -/
def gen_srs (k : Nat) (w : World) : ParamsKZG × World :=
  (⟨k, (drawRandom w).1⟩, (drawRandom w).2)

/-- `EvmVerifier::prepare_params(path)`: decode an SRS ceremony file
(validating the size tag 23), re-serialize it raw, and decode it as
`ParamsKZG`; every decoder failure is surfaced (the source unwraps, which
panics with the attached context). The file content stands in for the path. -/
def prepare_params (env : Env) (file : List Nat) (w : World) :
    Except PipelineError ParamsKZG × World :=
  match env.decodeSrs file 23 with
  | none => (Except.error PipelineError.fileReadError, w)
  | some srs =>
    match env.decodeParams (env.writeRaw srs) with
    | none => (Except.error PipelineError.malformedParams, w)
    | some params => (Except.ok params, w)

/-- Modelled from the spec (section 4.2): halo2 `keygen_vk` derives the
verifying key deterministically and fails if the circuit size exceeds the
capacity `2^k` of the parameters. -/
def keygen_vk (env : Env) (p : ParamsKZG) (c : Verifier) : Except PipelineError Nat :=
  if env.rows c ≤ 2 ^ p.k then Except.ok (env.vkOf p c)
  else Except.error PipelineError.circuitTooLarge

/-- Modelled from the spec (section 4.2): halo2 `keygen_pk` extends the
verifying key into a proving key (the precomputation and commitment work). -/
def keygen_pk (env : Env) (p : ParamsKZG) (vk : Nat) (c : Verifier) : Nat :=
  env.pkOf p vk c

/-- `EvmVerifier::gen_pk(params, circuit)`: `keygen_vk(params, circuit).unwrap()`
then `keygen_pk(params, vk, circuit).unwrap()`. -/
def gen_pk (env : Env) (p : ParamsKZG) (c : Verifier) (w : World) :
    List Event × Except PipelineError Nat × World :=
  match keygen_vk env p c with
  | Except.error e => ([Event.keygenVk p], Except.error e, w)
  | Except.ok vk =>
    ([Event.keygenVk p, Event.keygenPk p], Except.ok (keygen_pk env p vk c), w)

/-- `EvmVerifier::gen_proof(params, pk, circuit, instances)`: first re-runs
`MockProver::run(params.k(), circuit, instances)` and asserts satisfaction;
then `create_proof` over a fresh EVM transcript with `OsRng`; then replays the
transcript with `verify_proof` against the same parameters, the verifying key
of the same proving key, and the same instances, asserting acceptance before
returning the proof bytes. -/
def gen_proof (env : Env) (p : ParamsKZG) (pk : Nat) (c : Verifier)
    (instances : List (List Nat)) (w : World) :
    List Event × Except PipelineError (List Nat) × World :=
  if env.mockOk p.k c instances then
    let r := (drawRandom w).1
    let w1 := (drawRandom w).2
    match env.createProof p pk c instances r with
    | none =>
      ([Event.mockRun p.k instances, Event.createProof p],
       Except.error PipelineError.proofCreationFailed, w1)
    | some proof =>
      if env.verifyAccepts p pk instances proof then
        ([Event.mockRun p.k instances, Event.createProof p, Event.verifyProof p],
         Except.ok proof, w1)
      else
        ([Event.mockRun p.k instances, Event.createProof p, Event.verifyProof p],
         Except.error PipelineError.selfVerificationFailed, w1)
  else
    ([Event.mockRun p.k instances], Except.error PipelineError.mockUnsatisfied, w)

/-- `EvmVerifier::gen_evm_verifier(params, vk, num_instance)`: compile the
protocol, run the symbolic EVM-loader verification, and compile the Yul code
to deployment bytecode. The source calls no randomness source and touches no
mutable state, so the world passes through unchanged. -/
def gen_evm_verifier (env : Env) (p : ParamsKZG) (vk : Nat)
    (num_instance : List Nat) (w : World) :
    List Event × List Nat × World :=
  ([Event.compileVerifier p num_instance], env.compileVerifier p vk num_instance, w)

/-- `EvmVerifier::evm_verify(deployment_code, instances, proof)`: encode the
calldata, deploy the bytecode in a fresh executor, call it, and report
whether the call did not revert (the source asserts success). -/
def evm_verify (env : Env) (deployment_code : List Nat)
    (instances : List (List Nat)) (proof : List Nat) (w : World) :
    List Event × Bool × World :=
  ([Event.encodeCalldata instances proof, Event.evmDeploy, Event.evmCall],
   env.evmAccepts deployment_code (env.encodeCalldata instances proof), w)

end EvmVerifier

/-- Dereference of the `lazy_static` cell `SRS`: on first access it is
initialized with `EvmVerifier::gen_srs(23)` and cached; afterwards the cached
value is returned unchanged. -/
def getSRS (w : World) : ParamsKZG × World :=
  match w.srsCache with
  | some p => (p, w)
  | none =>
    let p := (EvmVerifier.gen_srs 23 w).1
    let w1 := (EvmVerifier.gen_srs 23 w).2
    (p, ⟨w1.rng, some p⟩)

/-- The instance vector both entry points derive from the public inputs of
the plonky2 proof: each Goldilocks public input mapped to an `Fr` element,
in input order. -/
def instancesOfTuple (pt : ProofTuple) : List Nat :=
  pt.proof_with_public_inputs.public_inputs.map
    (fun e => big_to_fe (fe_to_big (to_goldilocks e)))

/-- The verifier circuit both entry points build from the proof tuple. -/
def circuitOf (pt : ProofTuple) : Verifier :=
  Verifier.new (ProofValues.fromInner pt.proof_with_public_inputs.proof)
    (instancesOfTuple pt)
    (VerificationKeyValues.fromVd pt.vd)
    (CommonData.fromCd pt.cd)
    (PoseidonSpec.new 8 22)

/-- `verify_inside_snark_mock(proof)`: convert the tuple, build the verifier
circuit, and run `MockProver::run(23, circuit, vec![instances])` followed by
`assert_satisfied`. -/
def verify_inside_snark_mock (env : Env) (pt : ProofTuple) (w : World) :
    List Event × Except PipelineError Unit × World :=
  let proof := ProofValues.fromInner pt.proof_with_public_inputs.proof
  let instances := pt.proof_with_public_inputs.public_inputs.map
    (fun e => big_to_fe (fe_to_big (to_goldilocks e)))
  let vk := VerificationKeyValues.fromVd pt.vd
  let common_data := CommonData.fromCd pt.cd
  let poseidonSpec := PoseidonSpec.new 8 22
  let verifier_circuit := Verifier.new proof instances vk common_data poseidonSpec
  ([Event.mockRun 23 [instances]],
   if env.mockOk 23 verifier_circuit [instances] then Except.ok ()
   else Except.error PipelineError.mockUnsatisfied, w)

/-- `verify_inside_snark(proof)`: convert the tuple, build the verifier
circuit, run `MockProver::run(22, circuit, vec![instances])` with
`assert_satisfied` as the gate, then derive the proving key from the shared
`SRS`, compile the EVM verifier from the shared `SRS` and
`vec![instances.len()]`, generate the proof from the shared `SRS`, and run
the EVM verifier on the encoded calldata. Each use of `SRS` is a fresh
dereference of the `lazy_static` cell. -/
def verify_inside_snark (env : Env) (pt : ProofTuple) (w : World) :
    List Event × Except PipelineError Unit × World :=
  let proof := ProofValues.fromInner pt.proof_with_public_inputs.proof
  let instances := pt.proof_with_public_inputs.public_inputs.map
    (fun e => big_to_fe (fe_to_big (to_goldilocks e)))
  let vk := VerificationKeyValues.fromVd pt.vd
  let common_data := CommonData.fromCd pt.cd
  let poseidonSpec := PoseidonSpec.new 8 22
  let circuit := Verifier.new proof instances vk common_data poseidonSpec
  if env.mockOk 22 circuit [instances] then
    let p1 := (getSRS w).1
    let w1 := (getSRS w).2
    match EvmVerifier.gen_pk env p1 circuit w1 with
    | (evPk, Except.error e, w2) =>
      (Event.mockRun 22 [instances] :: evPk, Except.error e, w2)
    | (evPk, Except.ok pk, w2) =>
      let p2 := (getSRS w2).1
      let w3 := (getSRS w2).2
      let compiled := EvmVerifier.gen_evm_verifier env p2 (env.getVk pk)
        [instances.length] w3
      let evC := compiled.1
      let deployment_code := compiled.2.1
      let w4 := compiled.2.2
      let p3 := (getSRS w4).1
      let w5 := (getSRS w4).2
      let proved := EvmVerifier.gen_proof env p3 pk circuit [instances] w5
      let evP := proved.1
      let w6 := proved.2.2
      match proved.2.1 with
      | Except.error e =>
        (Event.mockRun 22 [instances] :: (evPk ++ evC ++ evP), Except.error e, w6)
      | Except.ok proofBytes =>
        let verified := EvmVerifier.evm_verify env deployment_code [instances] proofBytes w6
        let evV := verified.1
        let ok := verified.2.1
        let w7 := verified.2.2
        (Event.mockRun 22 [instances] :: (evPk ++ evC ++ evP ++ evV),
         if ok then Except.ok () else Except.error PipelineError.evmReverted, w7)
  else
    ([Event.mockRun 22 [instances]], Except.error PipelineError.mockUnsatisfied, w)

/-- The parameters an event was issued against, when it carries any. -/
def Event.paramsOf : Event → Option ParamsKZG
  | Event.keygenVk p => some p
  | Event.keygenPk p => some p
  | Event.compileVerifier p _ => some p
  | Event.createProof p => some p
  | Event.verifyProof p => some p
  | _ => none

/-- A concrete environment in which every external call succeeds. -/
def envAllOk : Env where
  rows := fun _ => 0
  vkOf := fun _ _ => 0
  pkOf := fun _ _ _ => 0
  getVk := fun pk => pk
  mockOk := fun _ _ _ => true
  createProof := fun _ _ _ _ _ => some [1, 2, 3]
  verifyAccepts := fun _ _ _ _ => true
  compileVerifier := fun _ _ _ => [9]
  encodeCalldata := fun _ pr => pr
  evmAccepts := fun _ _ => true
  decodeSrs := fun _ _ => none
  writeRaw := fun _ => []
  decodeParams := fun _ => none

/-- A concrete environment whose mock constraint check always fails. -/
def envMockFails : Env := { envAllOk with mockOk := fun _ _ _ => false }

/-- A concrete environment whose circuit needs more rows than any 2^23-sized
parameters provide. -/
def envTooLarge : Env := { envAllOk with rows := fun _ => 2 ^ 24 }

/-- A concrete proof tuple with a single public input. -/
def pt0 : ProofTuple := ⟨⟨0, [5]⟩, 0, 0⟩

/-- The initial process state: fresh randomness counter, SRS not yet
initialized. -/
def w0 : World := ⟨0, none⟩

section Lemmas

lemma getSRS_cache_some (w : World) (p : ParamsKZG) (h : w.srsCache = some p) :
    getSRS w = (p, w) := by
  unfold getSRS
  rw [h]

lemma getSRS_cache_after (w : World) :
    (getSRS w).2.srsCache = some (getSRS w).1 := by
  unfold getSRS
  cases h : w.srsCache <;> simp [h]

lemma getSRS_idem (w : World) :
    getSRS (getSRS w).2 = ((getSRS w).1, (getSRS w).2) :=
  getSRS_cache_some _ _ (getSRS_cache_after w)

lemma getSRS_k_of_uninitialized (w : World) (h : w.srsCache = none) :
    (getSRS w).1.k = 23 := by
  unfold getSRS
  rw [h]
  rfl

end Lemmas


/-- C1: every proof byte sequence returned by `EvmVerifier::gen_proof` has
already been verified off-chain by the prover itself: whenever `gen_proof`
returns proof bytes, the `verify_proof` replay against the same parameters,
proving key and instances accepted exactly those bytes, and the verification
event is part of the run; a proof that fails local verification is never
returned. -/
theorem gen_proof_returns_only_self_verified_proofs (env : Env) (p : ParamsKZG)
    (pk : Nat) (c : Verifier) (instances : List (List Nat)) (w : World)
    (bytes : List Nat)
    (h : (EvmVerifier.gen_proof env p pk c instances w).2.1 = Except.ok bytes) :
    env.verifyAccepts p pk instances bytes = true ∧
    Event.verifyProof p ∈ (EvmVerifier.gen_proof env p pk c instances w).1 := by
  unfold EvmVerifier.gen_proof at h ⊢
  cases hm : env.mockOk p.k c instances
  · simp [hm] at h
  · cases hc : env.createProof p pk c instances (drawRandom w).1
    · simp [hm, hc] at h
    · rename_i proof
      cases hv : env.verifyAccepts p pk instances proof
      · simp [hm, hc, hv] at h
      · simp [hm, hc, hv] at h
        subst h
        exact ⟨hv, by simp [hm, hc, hv]⟩

/-- Closed witness for C1 at a concrete environment and input. -/
theorem gen_proof_returns_only_self_verified_proofs_witness :
    envAllOk.verifyAccepts ⟨23, 0⟩ 0 [[5]] [1, 2, 3] = true ∧
    Event.verifyProof ⟨23, 0⟩ ∈
      (EvmVerifier.gen_proof envAllOk ⟨23, 0⟩ 0 (circuitOf pt0) [[5]] w0).1 :=
  gen_proof_returns_only_self_verified_proofs envAllOk ⟨23, 0⟩ 0 (circuitOf pt0)
    [[5]] w0 [1, 2, 3] rfl

/-- C2: for every input tuple whose verifier circuit fails the mock
constraint check gating the full pipeline, `verify_inside_snark` aborts at
the mock-check stage: the run consists of that single mock check, ends in
the mock-unsatisfied error with the process state untouched, and in
particular never reaches proof generation or verifier compilation. -/
theorem mock_failure_aborts_pipeline (env : Env) (pt : ProofTuple) (w : World)
    (h : env.mockOk 22 (circuitOf pt) [instancesOfTuple pt] = false) :
    verify_inside_snark env pt w =
      ([Event.mockRun 22 [instancesOfTuple pt]],
       Except.error PipelineError.mockUnsatisfied, w) := by
  have h1 : env.mockOk 22
      (Verifier.new (ProofValues.fromInner pt.proof_with_public_inputs.proof)
        (pt.proof_with_public_inputs.public_inputs.map
          (fun e => big_to_fe (fe_to_big (to_goldilocks e))))
        (VerificationKeyValues.fromVd pt.vd) (CommonData.fromCd pt.cd)
        (PoseidonSpec.new 8 22))
      [pt.proof_with_public_inputs.public_inputs.map
        (fun e => big_to_fe (fe_to_big (to_goldilocks e)))] = false := h
  unfold verify_inside_snark
  simp only [h1]
  rfl

/-- Closed witness for C2 at a concrete environment and input. -/
theorem mock_failure_aborts_pipeline_witness :
    envMockFails.mockOk 22 (circuitOf pt0) [instancesOfTuple pt0] = false ∧
    verify_inside_snark envMockFails pt0 w0 =
      ([Event.mockRun 22 [instancesOfTuple pt0]],
       Except.error PipelineError.mockUnsatisfied, w0) :=
  ⟨rfl, mock_failure_aborts_pipeline envMockFails pt0 w0 rfl⟩

/-- C4: `EvmVerifier::prepare_params` decodes the ceremony file with the
expected size tag 23; a file the SRS decoder rejects or whose re-encoded
parameters the parameter decoder rejects makes it fail with the
corresponding decode error and leave the process state untouched, and it
returns parameters only when both decoders succeeded, in which case the
result is exactly the decoded value — never padded or truncated data. -/
theorem prepare_params_surfaces_decode_errors (env : Env) (file : List Nat) (w : World) :
    (env.decodeSrs file 23 = none →
      EvmVerifier.prepare_params env file w =
        (Except.error PipelineError.fileReadError, w)) ∧
    (∀ srs, env.decodeSrs file 23 = some srs →
      env.decodeParams (env.writeRaw srs) = none →
      EvmVerifier.prepare_params env file w =
        (Except.error PipelineError.malformedParams, w)) ∧
    (∀ params, (EvmVerifier.prepare_params env file w).1 = Except.ok params →
      ∃ srs, env.decodeSrs file 23 = some srs ∧
        env.decodeParams (env.writeRaw srs) = some params) := by
  refine ⟨fun h1 => ?_, fun srs h1 h2 => ?_, fun params h => ?_⟩
  · simp [EvmVerifier.prepare_params, h1]
  · simp [EvmVerifier.prepare_params, h1, h2]
  · unfold EvmVerifier.prepare_params at h
    cases h1 : env.decodeSrs file 23 with
    | none => rw [h1] at h; simp at h
    | some srs =>
      rw [h1] at h
      cases h2 : env.decodeParams (env.writeRaw srs) with
      | none => simp [h2] at h
      | some q =>
        simp [h2] at h
        exact ⟨srs, rfl, by rw [h2, h]⟩

/-- Closed witness for C4 at a concrete environment and input. -/
theorem prepare_params_surfaces_decode_errors_witness :
    EvmVerifier.prepare_params envAllOk [] w0 =
      (Except.error PipelineError.fileReadError, w0) :=
  (prepare_params_surfaces_decode_errors envAllOk [] w0).1 rfl

/-- C6: `EvmVerifier::gen_evm_verifier` is deterministic: its deployment
bytecode depends only on the parameters, verifying key and instance counts —
two invocations from any two ambient process states produce identical bytes,
and the invocation consumes no randomness and changes no state. -/
theorem gen_evm_verifier_deterministic (env : Env) (p : ParamsKZG) (vk : Nat)
    (ni : List Nat) (w1 w2 : World) :
    (EvmVerifier.gen_evm_verifier env p vk ni w1).2.1 =
      (EvmVerifier.gen_evm_verifier env p vk ni w2).2.1 ∧
    (EvmVerifier.gen_evm_verifier env p vk ni w1).2.2 = w1 :=
  ⟨rfl, rfl⟩

/-- C7: deriving keys for a circuit whose row count exceeds the capacity
2^k of the parameters fails at verifying-key derivation: `gen_pk` returns
the capacity error and its run stops before the proving-key commitment work
(no `keygenPk` event occurs). -/
theorem gen_pk_capacity_gate (env : Env) (p : ParamsKZG) (c : Verifier) (w : World)
    (h : 2 ^ p.k < env.rows c) :
    EvmVerifier.gen_pk env p c w =
      ([Event.keygenVk p], Except.error PipelineError.circuitTooLarge, w) := by
  unfold EvmVerifier.gen_pk EvmVerifier.keygen_vk
  rw [if_neg (by omega)]

/-- Closed witness for C7 at a concrete environment and input. -/
theorem gen_pk_capacity_gate_witness :
    2 ^ (23 : Nat) < envTooLarge.rows (circuitOf pt0) ∧
    EvmVerifier.gen_pk envTooLarge ⟨23, 0⟩ (circuitOf pt0) w0 =
      ([Event.keygenVk ⟨23, 0⟩], Except.error PipelineError.circuitTooLarge, w0) :=
  ⟨by norm_num [envTooLarge, envAllOk], gen_pk_capacity_gate envTooLarge ⟨23, 0⟩
    (circuitOf pt0) w0 (by norm_num [envTooLarge, envAllOk])⟩

/-- C8: `verify_inside_snark_mock` runs exactly one stage: the mock
constraint check of the verifier circuit at row capacity 2^23 on the single
converted instance vector; it produces no cryptographic proof, compiles no
verifier, and leaves the process state (including the SRS store) untouched,
succeeding exactly when the mock check is satisfied. -/
theorem verify_inside_snark_mock_only_mock_checks (env : Env) (pt : ProofTuple)
    (w : World) :
    verify_inside_snark_mock env pt w =
      ([Event.mockRun 23 [instancesOfTuple pt]],
       if env.mockOk 23 (circuitOf pt) [instancesOfTuple pt] then Except.ok ()
       else Except.error PipelineError.mockUnsatisfied, w) :=
  rfl

lemma map_conv_eq (pt : ProofTuple) :
    pt.proof_with_public_inputs.public_inputs.map
      (fun e => big_to_fe (fe_to_big (to_goldilocks e))) = instancesOfTuple pt := rfl

lemma verifier_new_eq (pt : ProofTuple) :
    Verifier.new (ProofValues.fromInner pt.proof_with_public_inputs.proof)
      (instancesOfTuple pt) (VerificationKeyValues.fromVd pt.vd)
      (CommonData.fromCd pt.cd) (PoseidonSpec.new 8 22) = circuitOf pt := rfl

lemma verify_inside_snark_run (env : Env) (pt : ProofTuple) (w : World) :
    verify_inside_snark env pt w =
      (if env.mockOk 22 (circuitOf pt) [instancesOfTuple pt] then
        (if env.rows (circuitOf pt) ≤ 2 ^ (getSRS w).1.k then
          (if env.mockOk (getSRS w).1.k (circuitOf pt) [instancesOfTuple pt] then
            (match env.createProof (getSRS w).1
                (env.pkOf (getSRS w).1 (env.vkOf (getSRS w).1 (circuitOf pt)) (circuitOf pt))
                (circuitOf pt) [instancesOfTuple pt] (getSRS w).2.rng with
            | none =>
              ([Event.mockRun 22 [instancesOfTuple pt], Event.keygenVk (getSRS w).1,
                Event.keygenPk (getSRS w).1,
                Event.compileVerifier (getSRS w).1 [(instancesOfTuple pt).length],
                Event.mockRun (getSRS w).1.k [instancesOfTuple pt],
                Event.createProof (getSRS w).1],
               Except.error PipelineError.proofCreationFailed,
               ⟨(getSRS w).2.rng + 1, (getSRS w).2.srsCache⟩)
            | some proofBytes =>
              (if env.verifyAccepts (getSRS w).1
                  (env.pkOf (getSRS w).1 (env.vkOf (getSRS w).1 (circuitOf pt)) (circuitOf pt))
                  [instancesOfTuple pt] proofBytes then
                (if env.evmAccepts
                    (env.compileVerifier (getSRS w).1
                      (env.getVk (env.pkOf (getSRS w).1
                        (env.vkOf (getSRS w).1 (circuitOf pt)) (circuitOf pt)))
                      [(instancesOfTuple pt).length])
                    (env.encodeCalldata [instancesOfTuple pt] proofBytes) then
                  ([Event.mockRun 22 [instancesOfTuple pt], Event.keygenVk (getSRS w).1,
                    Event.keygenPk (getSRS w).1,
                    Event.compileVerifier (getSRS w).1 [(instancesOfTuple pt).length],
                    Event.mockRun (getSRS w).1.k [instancesOfTuple pt],
                    Event.createProof (getSRS w).1, Event.verifyProof (getSRS w).1,
                    Event.encodeCalldata [instancesOfTuple pt] proofBytes,
                    Event.evmDeploy, Event.evmCall],
                   Except.ok (),
                   ⟨(getSRS w).2.rng + 1, (getSRS w).2.srsCache⟩)
                else
                  ([Event.mockRun 22 [instancesOfTuple pt], Event.keygenVk (getSRS w).1,
                    Event.keygenPk (getSRS w).1,
                    Event.compileVerifier (getSRS w).1 [(instancesOfTuple pt).length],
                    Event.mockRun (getSRS w).1.k [instancesOfTuple pt],
                    Event.createProof (getSRS w).1, Event.verifyProof (getSRS w).1,
                    Event.encodeCalldata [instancesOfTuple pt] proofBytes,
                    Event.evmDeploy, Event.evmCall],
                   Except.error PipelineError.evmReverted,
                   ⟨(getSRS w).2.rng + 1, (getSRS w).2.srsCache⟩))
              else
                ([Event.mockRun 22 [instancesOfTuple pt], Event.keygenVk (getSRS w).1,
                  Event.keygenPk (getSRS w).1,
                  Event.compileVerifier (getSRS w).1 [(instancesOfTuple pt).length],
                  Event.mockRun (getSRS w).1.k [instancesOfTuple pt],
                  Event.createProof (getSRS w).1, Event.verifyProof (getSRS w).1],
                 Except.error PipelineError.selfVerificationFailed,
                 ⟨(getSRS w).2.rng + 1, (getSRS w).2.srsCache⟩)))
          else
            ([Event.mockRun 22 [instancesOfTuple pt], Event.keygenVk (getSRS w).1,
              Event.keygenPk (getSRS w).1,
              Event.compileVerifier (getSRS w).1 [(instancesOfTuple pt).length],
              Event.mockRun (getSRS w).1.k [instancesOfTuple pt]],
             Except.error PipelineError.mockUnsatisfied, (getSRS w).2))
        else
          ([Event.mockRun 22 [instancesOfTuple pt], Event.keygenVk (getSRS w).1],
           Except.error PipelineError.circuitTooLarge, (getSRS w).2))
      else
        ([Event.mockRun 22 [instancesOfTuple pt]],
         Except.error PipelineError.mockUnsatisfied, w)) := by
  unfold verify_inside_snark EvmVerifier.gen_pk EvmVerifier.keygen_vk EvmVerifier.keygen_pk
    EvmVerifier.gen_proof EvmVerifier.gen_evm_verifier EvmVerifier.evm_verify drawRandom
  simp only [map_conv_eq, verifier_new_eq, getSRS_idem]
  cases hm : env.mockOk 22 (circuitOf pt) [instancesOfTuple pt]
  · simp
  · by_cases hcap : env.rows (circuitOf pt) ≤ 2 ^ (getSRS w).1.k
    · simp only [hcap, if_true, if_pos]
      cases hm23 : env.mockOk (getSRS w).1.k (circuitOf pt) [instancesOfTuple pt]
      · simp [hm23, getSRS_idem]
      · cases hcp : env.createProof (getSRS w).1
            (env.pkOf (getSRS w).1 (env.vkOf (getSRS w).1 (circuitOf pt)) (circuitOf pt))
            (circuitOf pt) [instancesOfTuple pt] (getSRS w).2.rng
        · simp [hcp, hm23, getSRS_idem]
        · rename_i proofBytes
          cases hv : env.verifyAccepts (getSRS w).1
              (env.pkOf (getSRS w).1 (env.vkOf (getSRS w).1 (circuitOf pt)) (circuitOf pt))
              [instancesOfTuple pt] proofBytes
          · simp [hcp, hv, hm23, getSRS_idem]
          · cases hok : env.evmAccepts
                (env.compileVerifier (getSRS w).1
                  (env.getVk (env.pkOf (getSRS w).1
                    (env.vkOf (getSRS w).1 (circuitOf pt)) (circuitOf pt)))
                  [(instancesOfTuple pt).length])
                (env.encodeCalldata [instancesOfTuple pt] proofBytes)
            · simp [hcp, hv, hok, hm23, getSRS_idem]
            · simp [hcp, hv, hok, hm23, getSRS_idem]
    · simp [hcap, getSRS_idem]

/-- C3 counterexample: in a successful full-pipeline run on concrete inputs
the verifier compiler event occurs at position 3, strictly before the proof
generation event at position 5, so the stage order claimed by the
specification (Prover before Verifier Compiler) does not hold. -/
theorem compiler_runs_before_prover_cex :
    (verify_inside_snark envAllOk pt0 w0).2.1 = Except.ok () ∧
    (verify_inside_snark envAllOk pt0 w0).1 =
      [Event.mockRun 22 [[5]], Event.keygenVk ⟨23, 0⟩, Event.keygenPk ⟨23, 0⟩,
       Event.compileVerifier ⟨23, 0⟩ [1], Event.mockRun 23 [[5]],
       Event.createProof ⟨23, 0⟩, Event.verifyProof ⟨23, 0⟩,
       Event.encodeCalldata [[5]] [1, 2, 3], Event.evmDeploy, Event.evmCall] ∧
    List.indexOf (Event.compileVerifier ⟨23, 0⟩ [1]) (verify_inside_snark envAllOk pt0 w0).1 <
      List.indexOf (Event.createProof ⟨23, 0⟩) (verify_inside_snark envAllOk pt0 w0).1 := by
  refine ⟨rfl, rfl, ?_⟩
  decide

/-- C3 (amended): in full pipeline mode the stages run in the order Mock
Checker (row capacity 22), Key Manager (verifying then proving key),
Verifier Compiler, Prover (which re-runs the Mock Checker at the shared SRS
exponent, creates the proof and self-verifies it), Calldata Encoder, and
Execution Harness: every successful run has exactly this event sequence. -/
theorem verify_inside_snark_stage_order (env : Env) (pt : ProofTuple) (w : World)
    (h : (verify_inside_snark env pt w).2.1 = Except.ok ()) :
    ∃ proofBytes,
      (verify_inside_snark env pt w).1 =
        [Event.mockRun 22 [instancesOfTuple pt], Event.keygenVk (getSRS w).1,
         Event.keygenPk (getSRS w).1,
         Event.compileVerifier (getSRS w).1 [(instancesOfTuple pt).length],
         Event.mockRun (getSRS w).1.k [instancesOfTuple pt],
         Event.createProof (getSRS w).1, Event.verifyProof (getSRS w).1,
         Event.encodeCalldata [instancesOfTuple pt] proofBytes,
         Event.evmDeploy, Event.evmCall] := by
  by_cases hm : env.mockOk 22 (circuitOf pt) [instancesOfTuple pt] = true
  · by_cases hcap : env.rows (circuitOf pt) ≤ 2 ^ (getSRS w).1.k
    · by_cases hm23 : env.mockOk (getSRS w).1.k (circuitOf pt) [instancesOfTuple pt] = true
      · cases hcp : env.createProof (getSRS w).1
            (env.pkOf (getSRS w).1 (env.vkOf (getSRS w).1 (circuitOf pt)) (circuitOf pt))
            (circuitOf pt) [instancesOfTuple pt] (getSRS w).2.rng with
        | none =>
          rw [verify_inside_snark_run] at h
          simp [hm, hcap, hm23, hcp] at h
        | some proofBytes =>
          by_cases hv : env.verifyAccepts (getSRS w).1
              (env.pkOf (getSRS w).1 (env.vkOf (getSRS w).1 (circuitOf pt)) (circuitOf pt))
              [instancesOfTuple pt] proofBytes = true
          · refine ⟨proofBytes, ?_⟩
            rw [verify_inside_snark_run]
            cases hok : env.evmAccepts
                (env.compileVerifier (getSRS w).1
                  (env.getVk (env.pkOf (getSRS w).1
                    (env.vkOf (getSRS w).1 (circuitOf pt)) (circuitOf pt)))
                  [(instancesOfTuple pt).length])
                (env.encodeCalldata [instancesOfTuple pt] proofBytes) with
            | false =>
              rw [verify_inside_snark_run] at h
              simp [hm, hcap, hm23, hcp, hv, hok] at h
            | true => simp [hm, hcap, hm23, hcp, hv, hok]
          · rw [verify_inside_snark_run] at h
            simp [hm, hcap, hm23, hcp, hv] at h
      · rw [verify_inside_snark_run] at h
        simp [hm, hcap, hm23] at h
    · rw [verify_inside_snark_run] at h
      simp [hm, hcap] at h
  · rw [verify_inside_snark_run] at h
    simp [hm] at h

/-- Closed witness for the amended C3 at a concrete environment and input. -/
theorem verify_inside_snark_stage_order_witness :
    (verify_inside_snark envAllOk pt0 w0).2.1 = Except.ok () ∧
    ∃ proofBytes,
      (verify_inside_snark envAllOk pt0 w0).1 =
        [Event.mockRun 22 [instancesOfTuple pt0], Event.keygenVk (getSRS w0).1,
         Event.keygenPk (getSRS w0).1,
         Event.compileVerifier (getSRS w0).1 [(instancesOfTuple pt0).length],
         Event.mockRun (getSRS w0).1.k [instancesOfTuple pt0],
         Event.createProof (getSRS w0).1, Event.verifyProof (getSRS w0).1,
         Event.encodeCalldata [instancesOfTuple pt0] proofBytes,
         Event.evmDeploy, Event.evmCall] :=
  ⟨rfl, verify_inside_snark_stage_order envAllOk pt0 w0 rfl⟩

lemma verify_inside_snark_trace_cases (env : Env) (pt : ProofTuple) (w : World) :
    ∀ e ∈ (verify_inside_snark env pt w).1,
      e = Event.mockRun 22 [instancesOfTuple pt] ∨
      e = Event.keygenVk (getSRS w).1 ∨
      e = Event.keygenPk (getSRS w).1 ∨
      e = Event.compileVerifier (getSRS w).1 [(instancesOfTuple pt).length] ∨
      e = Event.mockRun (getSRS w).1.k [instancesOfTuple pt] ∨
      e = Event.createProof (getSRS w).1 ∨
      e = Event.verifyProof (getSRS w).1 ∨
      (∃ proofBytes, e = Event.encodeCalldata [instancesOfTuple pt] proofBytes) ∨
      e = Event.evmDeploy ∨ e = Event.evmCall := by
  intro e he
  rw [verify_inside_snark_run] at he
  by_cases hm : env.mockOk 22 (circuitOf pt) [instancesOfTuple pt] = true
  · by_cases hcap : env.rows (circuitOf pt) ≤ 2 ^ (getSRS w).1.k
    · by_cases hm23 : env.mockOk (getSRS w).1.k (circuitOf pt) [instancesOfTuple pt] = true
      · cases hcp : env.createProof (getSRS w).1
            (env.pkOf (getSRS w).1 (env.vkOf (getSRS w).1 (circuitOf pt)) (circuitOf pt))
            (circuitOf pt) [instancesOfTuple pt] (getSRS w).2.rng with
        | none =>
          simp only [hm, hcap, hm23, hcp, if_true, if_pos] at he
          simp at he
          rcases he with rfl | rfl | rfl | rfl | rfl | rfl <;> simp
        | some proofBytes =>
          by_cases hv : env.verifyAccepts (getSRS w).1
              (env.pkOf (getSRS w).1 (env.vkOf (getSRS w).1 (circuitOf pt)) (circuitOf pt))
              [instancesOfTuple pt] proofBytes = true
          · cases hok : env.evmAccepts
                (env.compileVerifier (getSRS w).1
                  (env.getVk (env.pkOf (getSRS w).1
                    (env.vkOf (getSRS w).1 (circuitOf pt)) (circuitOf pt)))
                  [(instancesOfTuple pt).length])
                (env.encodeCalldata [instancesOfTuple pt] proofBytes) <;>
              (simp [hm, hcap, hm23, hcp, hv, hok] at he
               rcases he with rfl | rfl | rfl | rfl | rfl | rfl | rfl | rfl | rfl | rfl <;> simp)
          · simp [hm, hcap, hm23, hcp, hv] at he
            rcases he with rfl | rfl | rfl | rfl | rfl | rfl | rfl <;> simp
      · simp [hm, hcap, hm23] at he
        rcases he with rfl | rfl | rfl | rfl | rfl <;> simp
    · simp [hm, hcap] at he
      rcases he with rfl | rfl <;> simp
  · simp [hm] at he
    subst he
    simp

/-- C5: the SRS store is a process-wide singleton with fixed size exponent
23: from an uninitialized process it is created with k = 23 on first access;
an access on an initialized process returns the cached value and changes
nothing; after any access the cache holds exactly the returned instance and
a further access returns the same instance with the state unchanged; and in
the full pipeline every parameters-carrying stage (key generation, verifier
compilation, proof generation and its self-verification) receives that same
single instance. -/
theorem srs_singleton_shared (env : Env) (pt : ProofTuple) (w : World) :
    (w.srsCache = none → (getSRS w).1.k = 23) ∧
    (∀ q, w.srsCache = some q → getSRS w = (q, w)) ∧
    (getSRS w).2.srsCache = some (getSRS w).1 ∧
    getSRS (getSRS w).2 = ((getSRS w).1, (getSRS w).2) ∧
    (∀ e ∈ (verify_inside_snark env pt w).1,
      ∀ q, e.paramsOf = some q → q = (getSRS w).1) := by
  refine ⟨fun h => getSRS_k_of_uninitialized w h, fun q hq => getSRS_cache_some w q hq,
    getSRS_cache_after w, getSRS_idem w, ?_⟩
  intro e he q hq
  rcases verify_inside_snark_trace_cases env pt w e he with
    rfl | rfl | rfl | rfl | rfl | rfl | rfl | ⟨B, rfl⟩ | rfl | rfl <;>
    simp [Event.paramsOf] at hq <;> simp [hq]

/-- Closed witness for C5 at a concrete process state: the first access
creates a k = 23 instance, and the key-generation event of a concrete full
run carries exactly that instance. -/
theorem srs_singleton_shared_witness :
    (getSRS w0).1.k = 23 ∧ (⟨23, 0⟩ : ParamsKZG) = (getSRS w0).1 :=
  ⟨(srs_singleton_shared envAllOk pt0 w0).1 rfl,
   (srs_singleton_shared envAllOk pt0 w0).2.2.2.2 (Event.keygenVk ⟨23, 0⟩) (by decide)
     ⟨23, 0⟩ rfl⟩

/-- C9: in full pipeline mode, whenever proof creation is reached the
circuit has been mock-checked twice at two different row-capacity
exponents: once at 22 before key generation and once at the shared SRS
exponent 23 (the parameters' `k`) immediately before proof creation, and
both checks were satisfied. -/
theorem double_mock_check_before_create_proof (env : Env) (pt : ProofTuple) (w : World)
    (h0 : w.srsCache = none)
    (h : Event.createProof (getSRS w).1 ∈ (verify_inside_snark env pt w).1) :
    env.mockOk 22 (circuitOf pt) [instancesOfTuple pt] = true ∧
    env.mockOk 23 (circuitOf pt) [instancesOfTuple pt] = true ∧
    (getSRS w).1.k = 23 ∧
    (∃ rest, (verify_inside_snark env pt w).1 =
      [Event.mockRun 22 [instancesOfTuple pt], Event.keygenVk (getSRS w).1,
       Event.keygenPk (getSRS w).1,
       Event.compileVerifier (getSRS w).1 [(instancesOfTuple pt).length],
       Event.mockRun 23 [instancesOfTuple pt],
       Event.createProof (getSRS w).1] ++ rest) := by
  have hk : (getSRS w).1.k = 23 := getSRS_k_of_uninitialized w h0
  by_cases hm : env.mockOk 22 (circuitOf pt) [instancesOfTuple pt] = true
  · by_cases hcap : env.rows (circuitOf pt) ≤ 2 ^ (getSRS w).1.k
    · by_cases hm23 : env.mockOk (getSRS w).1.k (circuitOf pt) [instancesOfTuple pt] = true
      · have hcap8 : env.rows (circuitOf pt) ≤ 8388608 := by
          have h2 := hcap
          rw [hk] at h2
          norm_num at h2
          exact h2
        have hm23n : env.mockOk 23 (circuitOf pt) [instancesOfTuple pt] = true := by
          rw [← hk]; exact hm23
        refine ⟨hm, hm23n, hk, ?_⟩
        rw [verify_inside_snark_run]
        cases hcp : env.createProof (getSRS w).1
            (env.pkOf (getSRS w).1 (env.vkOf (getSRS w).1 (circuitOf pt)) (circuitOf pt))
            (circuitOf pt) [instancesOfTuple pt] (getSRS w).2.rng with
        | none => exact ⟨[], by simp [hm, hcap8, hm23n, hcp, hk]⟩
        | some proofBytes =>
          by_cases hv : env.verifyAccepts (getSRS w).1
              (env.pkOf (getSRS w).1 (env.vkOf (getSRS w).1 (circuitOf pt)) (circuitOf pt))
              [instancesOfTuple pt] proofBytes = true
          · cases hok : env.evmAccepts
                (env.compileVerifier (getSRS w).1
                  (env.getVk (env.pkOf (getSRS w).1
                    (env.vkOf (getSRS w).1 (circuitOf pt)) (circuitOf pt)))
                  [(instancesOfTuple pt).length])
                (env.encodeCalldata [instancesOfTuple pt] proofBytes) with
            | false =>
              exact ⟨[Event.verifyProof (getSRS w).1,
                Event.encodeCalldata [instancesOfTuple pt] proofBytes,
                Event.evmDeploy, Event.evmCall],
                by simp [hm, hcap8, hm23n, hcp, hv, hok, hk]⟩
            | true =>
              exact ⟨[Event.verifyProof (getSRS w).1,
                Event.encodeCalldata [instancesOfTuple pt] proofBytes,
                Event.evmDeploy, Event.evmCall],
                by simp [hm, hcap8, hm23n, hcp, hv, hok, hk]⟩
          · exact ⟨[Event.verifyProof (getSRS w).1],
              by simp [hm, hcap8, hm23n, hcp, hv, hk]⟩
      · rw [verify_inside_snark_run] at h
        simp [hm, hcap, hm23] at h
    · rw [verify_inside_snark_run] at h
      simp [hm, hcap] at h
  · rw [verify_inside_snark_run] at h
    simp [hm] at h

/-- Closed witness for C9 at a concrete environment and input. -/
theorem double_mock_check_before_create_proof_witness :
    envAllOk.mockOk 22 (circuitOf pt0) [instancesOfTuple pt0] = true ∧
    envAllOk.mockOk 23 (circuitOf pt0) [instancesOfTuple pt0] = true ∧
    (getSRS w0).1.k = 23 ∧
    (∃ rest, (verify_inside_snark envAllOk pt0 w0).1 =
      [Event.mockRun 22 [instancesOfTuple pt0], Event.keygenVk (getSRS w0).1,
       Event.keygenPk (getSRS w0).1,
       Event.compileVerifier (getSRS w0).1 [(instancesOfTuple pt0).length],
       Event.mockRun 23 [instancesOfTuple pt0],
       Event.createProof (getSRS w0).1] ++ rest) :=
  double_mock_check_before_create_proof envAllOk pt0 w0 rfl (by decide)

/-- C10: both entry points derive the instance vector from the outer proof
by the identical conversion (each Goldilocks public input mapped to an Fr
element, in input order, the list `instancesOfTuple`), and always pass
exactly one instance vector: the mock entry point runs its single mock
check on `[instancesOfTuple pt]`, the full pipeline's first event is its
mock check on the same singleton, the instance count handed to the verifier
compiler is always `[(instancesOfTuple pt).length]`, and the calldata
encoder always receives exactly `[instancesOfTuple pt]` — so the compiled
verifier and the calldata agree on the number and order of public inputs. -/
theorem instance_vector_consistency (env : Env) (pt : ProofTuple) (w : World) :
    (verify_inside_snark_mock env pt w).1 = [Event.mockRun 23 [instancesOfTuple pt]] ∧
    List.head? (verify_inside_snark env pt w).1 =
      some (Event.mockRun 22 [instancesOfTuple pt]) ∧
    (∀ q ni, Event.compileVerifier q ni ∈ (verify_inside_snark env pt w).1 →
      ni = [(instancesOfTuple pt).length]) ∧
    (∀ ii pr, Event.encodeCalldata ii pr ∈ (verify_inside_snark env pt w).1 →
      ii = [instancesOfTuple pt]) := by
  refine ⟨rfl, ?_, ?_, ?_⟩
  · rw [verify_inside_snark_run]
    repeat' split
    all_goals simp
  · intro q ni hmem
    rcases verify_inside_snark_trace_cases env pt w _ hmem with
      h | h | h | h | h | h | h | ⟨B, h⟩ | h | h <;> simp_all
  · intro ii pr hmem
    rcases verify_inside_snark_trace_cases env pt w _ hmem with
      h | h | h | h | h | h | h | ⟨B, h⟩ | h | h <;> simp_all

/-- Closed witness for C10 at a concrete environment and input. -/
theorem instance_vector_consistency_witness :
    (verify_inside_snark_mock envAllOk pt0 w0).1 =
      [Event.mockRun 23 [instancesOfTuple pt0]] ∧
    ([1] : List Nat) = [(instancesOfTuple pt0).length] :=
  ⟨(instance_vector_consistency envAllOk pt0 w0).1,
   (instance_vector_consistency envAllOk pt0 w0).2.2.1 ⟨23, 0⟩ [1] (by decide)⟩
